import Mathlib

/-!
Shallow embedding of the access-decision engine of the iono-pi-access-control
repository (src/src/database.py): the local cache (`access_cache` table), the
audit log (`access_logs` table), the remote verification client
(`RemoteVerifier`) and the orchestrating `AccessVerifier.verify_access`.

Timestamps are modelled as natural numbers counting seconds (the code only
compares datetimes by subtraction against fixed `timedelta`s, and all stored
timestamps are nonnegative, so truncated subtraction on `Nat` decides the
same comparisons).  Python exceptions raised by the database driver or the
HTTP client are modelled by explicit failure flags in a per-call environment;
each `try/except` of the source becomes the corresponding branch.
-/

namespace IonoPi

/-- JSON values appearing in remote response bodies.  `time t` stands for a
string holding a timestamp that `datetime.fromisoformat` parses to `t`;
`str` covers all other strings (for which `fromisoformat` raises and the
code falls back to `None`). -/
inductive JsonVal where
  | str (s : String)
  | bool (b : Bool)
  | list (xs : List String)
  | time (t : Nat)
  | null
deriving DecidableEq

/-- A parsed JSON object body (a Python dict). -/
abbrev Dict := List (String × JsonVal)

/-- Python `d[k]` presence lookup / `d.get(k)` without default:
`none` when the key is absent. -/
def dictFind (d : Dict) (k : String) : Option JsonVal :=
  (d.find? (fun p => p.1 == k)).map (fun p => p.2)

/-- Python truthiness of a JSON value, as used by the code when a value
flows into a boolean position (`access_granted`). -/
def truthy : JsonVal → Bool
  | .str s => s ≠ ""
  | .bool b => b
  | .list xs => ¬ xs.isEmpty
  | .time _ => true
  | .null => false

/-- Projection of a JSON value to an optional string field (`user_id`,
`user_name`, `reason`): JSON `null` is Python `None`. -/
def jsonOptStr : JsonVal → Option String
  | .str s => some s
  | _ => none

/-- `AccessResult` dataclass (database.py lines 26-36).  `permissions` has
Python default `None`, hence `Option (List String)`. -/
structure AccessResult where
  granted : Bool
  barcode : String
  user_id : Option String := none
  user_name : Option String := none
  reason : Option String := none
  expires_at : Option Nat := none
  permissions : Option (List String) := none
  cached : Bool := false
deriving DecidableEq

/-- A row of the `access_cache` table (columns of the CREATE TABLE at
database.py lines 74-84; `permissions` is stored JSON-serialised, modelled
by the round-tripped list). -/
structure CacheRow where
  barcode : String
  user_id : Option String
  user_name : Option String
  granted : Bool
  permissions : List String
  expires_at : Option Nat
  cached_at : Nat
deriving DecidableEq

/-- A row of the `access_logs` table / the `AccessLog` dataclass
(database.py lines 39-53). -/
structure AccessLog where
  timestamp : Nat
  barcode : String
  granted : Bool
  user_id : Option String := none
  user_name : Option String := none
  reason : String := ""
  source : String := "barcode"
deriving DecidableEq

/-- The cache-validity window hardcoded at database.py line 154:
`timedelta(hours=1)`, in seconds. -/
def cacheValiditySeconds : Nat := 3600

/-- The `SELECT ... WHERE barcode = ?` of `get_cached_access`:
`barcode` is the primary key, so the first (only) matching row. -/
def find_cache_row (cache : List CacheRow) (barcode : String) : Option CacheRow :=
  cache.find? (fun row => row.barcode == barcode)

/-- `LocalDatabase.get_cached_access` (database.py lines 138-171): returns the
cached result only when the row exists and `now - cached_at < 1 hour`;
otherwise falls through to `None`.  The returned `AccessResult` carries no
`reason` (the column is not stored) and has `cached=True`. -/
def get_cached_access (now : Nat) (cache : List CacheRow) (barcode : String) :
    Option AccessResult :=
  match find_cache_row cache barcode with
  | none => none
  | some row =>
    if now - row.cached_at < cacheValiditySeconds then
      some { granted := row.granted
             barcode := row.barcode
             user_id := row.user_id
             user_name := row.user_name
             reason := none
             expires_at := row.expires_at
             permissions := some row.permissions
             cached := true }
    else
      none

/-- `LocalDatabase.cache_access_result` (database.py lines 117-136):
`INSERT OR REPLACE` keyed by barcode; `cached_at` takes the column default
`CURRENT_TIMESTAMP`, i.e. `now`; permissions are serialised as
`result.permissions or []`. -/
def cache_access_result (now : Nat) (cache : List CacheRow) (r : AccessResult) :
    List CacheRow :=
  (cache.filter (fun row => row.barcode != r.barcode)) ++
    [{ barcode := r.barcode
       user_id := r.user_id
       user_name := r.user_name
       granted := r.granted
       permissions := r.permissions.getD []
       expires_at := r.expires_at
       cached_at := now }]

/-- `LocalDatabase.cleanup_old_cache` (database.py lines 221-233): deletes the
rows with `cached_at < now - max_age_hours`.  The first component is the
cache after the sweep; the second models the Python return value of the
function, which has no `return` statement and therefore returns `None` —
no count of removed rows is reported. -/
def cleanup_old_cache (now : Nat) (max_age_hours : Nat) (cache : List CacheRow) :
    List CacheRow × Option Nat :=
  let cutoff := now - max_age_hours * 3600
  (cache.filter (fun row => ¬ row.cached_at < cutoff), none)

/-- Remote-database configuration consumed by `RemoteVerifier`
(`config.database.remote`): the `type` field, `http.base_url`, and the
`HTTP_AVAILABLE` import guard (database.py lines 15-21, 246-247). -/
structure RemoteConfig where
  type : String
  base_url : String
  http_available : Bool := true
deriving DecidableEq

/-- The body of an HTTP response: `invalidJson` makes `response.json()`
raise (caught by the outer handler of `verify_barcode`); `nonObject` is
valid JSON that is not a JSON object, so `data.get` raises inside
`_parse_verification_response`; `obj d` is a JSON object. -/
inductive Body where
  | invalidJson
  | nonObject
  | obj (d : Dict)
deriving DecidableEq

/-- Outcome of the HTTP POST in `verify_barcode`: a transport error
(timeout, connection failure — any exception from the client), or a
response with a status code and body. -/
inductive RemoteResp where
  | netError
  | status (code : Nat) (body : Body)
deriving DecidableEq

/-- `RemoteVerifier._parse_verification_response` (database.py lines
307-340) on a JSON-object body: field-by-field `data.get` with the
defaults of the source.  `data.get` on a dict never raises, and the
`fromisoformat` failure is caught by the inner bare `except`, so this
path never reaches the outer exception handler. -/
def parse_verification_response (barcode : String) (d : Dict) : AccessResult :=
  let granted := match dictFind d "access_granted" with
    | some v => truthy v
    | none => false
  let user_id := match dictFind d "user_id" with
    | some v => jsonOptStr v
    | none => none
  let user_name := match dictFind d "user_name" with
    | some v => jsonOptStr v
    | none =>
      match dictFind d "name" with
      | some v => jsonOptStr v
      | none => none
  let reason := match dictFind d "reason" with
    | some v => jsonOptStr v
    | none => some (if granted then "Access granted" else "Access denied")
  let permissions := match dictFind d "permissions" with
    | some (.list xs) => some xs
    | some _ => none
    | none => some []
  let expires_at := match dictFind d "expires_at" with
    | some (.time t) => some t
    | _ => none
  { granted := granted
    barcode := barcode
    user_id := user_id
    user_name := user_name
    reason := reason
    expires_at := expires_at
    permissions := permissions
    cached := false }

/-- `RemoteVerifier.verify_barcode` (database.py lines 256-305): `None` when
the remote database is not configured (`type != "http"` or empty
`base_url`), when the HTTP stack is unavailable, on any transport
exception, and on any status other than 200/404; a deny `AccessResult` on
404; the parsed result on 200 — where a valid-JSON non-object body takes
the outer `except` of `_parse_verification_response` and yields the
"Invalid response format" deny. -/
def verify_barcode (cfg : RemoteConfig) (resp : RemoteResp) (barcode : String) :
    Option AccessResult :=
  if cfg.type ≠ "http" ∨ cfg.base_url = "" then none
  else if ¬ cfg.http_available then none
  else
    match resp with
    | .netError => none
    | .status code body =>
      if code = 200 then
        match body with
        | .invalidJson => none
        | .nonObject =>
          some { granted := false, barcode := barcode,
                 reason := some "Invalid response format" }
        | .obj d => some (parse_verification_response barcode d)
      else if code = 404 then
        some { granted := false, barcode := barcode,
               reason := some "Barcode not found in database" }
      else none

/-- The source tag of the spec Decision taxonomy, recording which branch of
`verify_access` produced the returned result: a fresh cache hit, an
explicit remote answer, the unavailable fallback deny, or the outer
exception handler. -/
inductive DSource where
  | cache
  | remote
  | fallback
  | error
deriving DecidableEq

/-- Per-call environment of one `verify_access` call: the current time, the
remote behaviour for this call, failure flags for the three local-database
operations (each of which catches its own exceptions in the source), and
an optional unexpected exception reaching the outer `try` of
`verify_access` itself. -/
structure CallEnv where
  now : Nat
  resp : RemoteResp
  cacheReadFails : Bool := false
  cacheWriteFails : Bool := false
  auditWriteFails : Bool := false
  unexpected : Option String := none
deriving DecidableEq

/-- The persistent local-database state: the `access_cache` table and the
append-only `access_logs` table. -/
structure DBState where
  cache : List CacheRow
  logs : List AccessLog
deriving DecidableEq

/-- Result of one `verify_access` call: the returned `AccessResult`, its
decision source, the database state afterwards, and whether
`RemoteVerifier.verify_barcode` was invoked. -/
structure VerifyOut where
  result : AccessResult
  source : DSource
  state : DBState
  remoteCalled : Bool
deriving DecidableEq

/-- `LocalDatabase.log_access_attempt` (database.py lines 173-193): appends
one row, except that a database failure is caught internally and the row
is silently dropped. -/
def appendLog (fails : Bool) (logs : List AccessLog) (entry : AccessLog) :
    List AccessLog :=
  if fails then logs else logs ++ [entry]

/-- The audit-row reason computed at database.py line 398:
`result.reason or ("Access granted" if result.granted else "Access denied")`
(Python `or`: the default also replaces an empty string). -/
def logReason (r : AccessResult) : String :=
  let dflt := if r.granted then "Access granted" else "Access denied"
  match r.reason with
  | some s => if s = "" then dflt else s
  | none => dflt

/-- `AccessVerifier.verify_access` (database.py lines 360-431): cache lookup
(a read failure is caught inside `get_cached_access` and behaves as a
miss), fall-through to the remote verifier, caching of any non-`None`
remote result (a write failure is caught inside `cache_access_result`),
fallback deny when the remote yields nothing, one audit append, and the
outer exception handler that returns the "Verification error" deny and
still attempts one audit append. -/
def verifyAccess (cfg : RemoteConfig) (env : CallEnv) (barcode : String)
    (origin : String) (st : DBState) : VerifyOut :=
  match env.unexpected with
  | some e =>
    let result : AccessResult :=
      { granted := false, barcode := barcode, reason := some "Verification error" }
    let entry : AccessLog :=
      { timestamp := env.now, barcode := barcode, granted := false,
        reason := "Verification error: " ++ e, source := origin }
    { result := result
      source := .error
      state := { st with logs := appendLog env.auditWriteFails st.logs entry }
      remoteCalled := false }
  | none =>
    match (if env.cacheReadFails then none else get_cached_access env.now st.cache barcode) with
    | some r =>
      let entry : AccessLog :=
        { timestamp := env.now, barcode := barcode, granted := r.granted,
          user_id := r.user_id, user_name := r.user_name,
          reason := logReason r, source := origin }
      { result := r
        source := .cache
        state := { st with logs := appendLog env.auditWriteFails st.logs entry }
        remoteCalled := false }
    | none =>
      match verify_barcode cfg env.resp barcode with
      | some r =>
        let cache2 :=
          if env.cacheWriteFails then st.cache else cache_access_result env.now st.cache r
        let entry : AccessLog :=
          { timestamp := env.now, barcode := barcode, granted := r.granted,
            user_id := r.user_id, user_name := r.user_name,
            reason := logReason r, source := origin }
        { result := r
          source := .remote
          state := { cache := cache2, logs := appendLog env.auditWriteFails st.logs entry }
          remoteCalled := true }
      | none =>
        let r : AccessResult :=
          { granted := false, barcode := barcode,
            reason := some "Remote verification unavailable" }
        let entry : AccessLog :=
          { timestamp := env.now, barcode := barcode, granted := false,
            reason := logReason r, source := origin }
        { result := r
          source := .fallback
          state := { st with logs := appendLog env.auditWriteFails st.logs entry }
          remoteCalled := true }

/-- Auxiliary for `containsSub`: does the second character list start with
the first? -/
def startsWithChars : List Char → List Char → Bool
  | [], _ => true
  | _ :: _, [] => false
  | p :: ps, c :: cs => p == c && startsWithChars ps cs

/-- Auxiliary for `containsSub`: does the character list contain the
pattern as a contiguous run? -/
def hasSubChars (pat : List Char) : List Char → Bool
  | [] => startsWithChars pat []
  | c :: cs => startsWithChars pat (c :: cs) || hasSubChars pat cs

/-- Boolean substring test used to state "reason contains ...". -/
def containsSub (s pat : String) : Bool :=
  hasSubChars pat.data s.data

/-- Character-level lowercasing, used to state case-insensitive string
comparisons between the spec's quoted reason texts and the source's. -/
def lowerChars (s : String) : List Char :=
  s.data.map Char.toLower

/-- A configured remote database, for concrete witnesses. -/
def cfgHttp : RemoteConfig :=
  { type := "http", base_url := "http://remote.example", http_available := true }

/-- The default, unconfigured remote database (config.py defaults:
type `"http"`, `base_url` empty), for concrete witnesses. -/
def cfgNone : RemoteConfig :=
  { type := "http", base_url := "", http_available := true }

/-- An empty local database, for concrete witnesses. -/
def emptySt : DBState := { cache := [], logs := [] }

/-- Every result produced by `verify_barcode` carries the queried barcode
and is not marked as served from the cache. -/
theorem verify_barcode_shape (cfg : RemoteConfig) (resp : RemoteResp)
    (b : String) (r : AccessResult) (h : verify_barcode cfg resp b = some r) :
    r.barcode = b ∧ r.cached = false := by
  unfold verify_barcode at h
  split at h
  · exact absurd h (by simp)
  · split at h
    · exact absurd h (by simp)
    · cases resp with
      | netError => exact absurd h (by simp)
      | status code body =>
        simp only at h
        split at h
        · cases body with
          | invalidJson => exact absurd h (by simp)
          | nonObject => cases h; exact ⟨rfl, rfl⟩
          | obj d => cases h; exact ⟨rfl, rfl⟩
        · split at h
          · cases h; exact ⟨rfl, rfl⟩
          · exact absurd h (by simp)

/-- Every hit returned by `get_cached_access` carries the queried barcode
and is marked as served from the cache. -/
theorem get_cached_access_shape (now : Nat) (cache : List CacheRow)
    (barcode : String) (r : AccessResult)
    (h : get_cached_access now cache barcode = some r) :
    r.barcode = barcode ∧ r.cached = true := by
  unfold get_cached_access at h
  cases hf : find_cache_row cache barcode with
  | none => rw [hf] at h; exact Option.noConfusion h
  | some row =>
    rw [hf] at h
    have hfind : List.find? (fun rw0 : CacheRow => rw0.barcode == barcode) cache =
        some row := by
      simpa [find_cache_row] using hf
    have hrow : row.barcode = barcode := by
      have h2 := List.find?_some hfind
      simpa using h2
    dsimp only at h
    by_cases hfresh : now - row.cached_at < cacheValiditySeconds
    · rw [if_pos hfresh] at h
      cases h
      exact ⟨hrow, rfl⟩
    · rw [if_neg hfresh] at h
      exact Option.noConfusion h

/-- A verify call that misses the cache (no unexpected error, read not
failing, lookup empty) always invokes the remote verifier. -/
theorem verifyAccess_remoteCalled_of_miss (cfg : RemoteConfig) (env : CallEnv)
    (barcode origin : String) (st : DBState)
    (hux : env.unexpected = none) (hcr : env.cacheReadFails = false)
    (hmiss : get_cached_access env.now st.cache barcode = none) :
    (verifyAccess cfg env barcode origin st).remoteCalled = true := by
  cases hvb : verify_barcode cfg env.resp barcode <;>
    simp [verifyAccess, hux, hcr, hmiss, hvb]

/-- After `cache_access_result`, the row found for the stored result's
barcode is exactly the freshly written row. -/
theorem find_cache_row_put (now : Nat) (c : List CacheRow) (r : AccessResult) :
    find_cache_row (cache_access_result now c r) r.barcode =
      some { barcode := r.barcode, user_id := r.user_id, user_name := r.user_name,
             granted := r.granted, permissions := r.permissions.getD [],
             expires_at := r.expires_at, cached_at := now } := by
  induction c with
  | nil => simp [find_cache_row, cache_access_result]
  | cons hd tl ih =>
    by_cases hb : hd.barcode = r.barcode
    · simp only [find_cache_row, cache_access_result] at ih ⊢
      simp [List.filter_cons, hb, ih]
    · simp only [find_cache_row, cache_access_result] at ih ⊢
      simp [List.filter_cons, hb, List.find?_cons, ih]

/-- A cache lookup within the validity window after a write returns the
written data, with no reason and `cached=true`. -/
theorem get_cached_access_put (now now2 : Nat) (c : List CacheRow) (r : AccessResult)
    (hfresh : now2 - now < cacheValiditySeconds) :
    get_cached_access now2 (cache_access_result now c r) r.barcode =
      some { granted := r.granted, barcode := r.barcode, user_id := r.user_id,
             user_name := r.user_name, reason := none, expires_at := r.expires_at,
             permissions := some (r.permissions.getD []), cached := true } := by
  simp [get_cached_access, find_cache_row_put, hfresh]

/-- Claim C5: a cache row whose `cached_at` is at least the validity window
old is treated as a miss by `get_cached_access` — whatever its
`expires_at` — and a verify call at that time invokes the remote
verifier again. -/
theorem C5_stale_cache_is_miss (now : Nat) (cache : List CacheRow)
    (barcode : String) (row : CacheRow)
    (hfind : find_cache_row cache barcode = some row)
    (hstale : cacheValiditySeconds ≤ now - row.cached_at) :
    get_cached_access now cache barcode = none ∧
    ∀ (cfg : RemoteConfig) (resp : RemoteResp) (origin : String) (logs : List AccessLog),
      (verifyAccess cfg ⟨now, resp, false, false, false, none⟩ barcode origin
        ⟨cache, logs⟩).remoteCalled = true := by
  have hmiss : get_cached_access now cache barcode = none := by
    simp [get_cached_access, hfind, Nat.not_lt.mpr hstale]
  refine ⟨hmiss, ?_⟩
  intro cfg resp origin logs
  exact verifyAccess_remoteCalled_of_miss cfg ⟨now, resp, false, false, false, none⟩
    barcode origin ⟨cache, logs⟩ rfl rfl hmiss

/-- Claim C5 witness: a row for "555" cached at time 1000 with a future
`expires_at` is a miss at time 9000, and the remote is queried. -/
theorem C5_witness :
    cacheValiditySeconds ≤ 9000 - 1000 ∧
    get_cached_access 9000 [⟨"555", some "u1", none, true, [], some 999999, 1000⟩]
      "555" = none ∧
    (verifyAccess cfgHttp ⟨9000, RemoteResp.netError, false, false, false, none⟩
      "555" "barcode"
      ⟨[⟨"555", some "u1", none, true, [], some 999999, 1000⟩], []⟩).remoteCalled = true := by
  refine ⟨by decide, ?_, ?_⟩
  · exact (C5_stale_cache_is_miss 9000 _ "555" ⟨"555", some "u1", none, true, [], some 999999, 1000⟩
      (by decide) (by decide)).1
  · exact (C5_stale_cache_is_miss 9000 _ "555" ⟨"555", some "u1", none, true, [], some 999999, 1000⟩
      (by decide) (by decide)).2 cfgHttp RemoteResp.netError "barcode" []

/-- Claim C10: a 200-status JSON-object body with no "access_granted" key
parses to a denied result — the missing grant flag defaults to `False`. -/
theorem C10_missing_grant_flag_denies (barcode : String) (d : Dict)
    (habsent : dictFind d "access_granted" = none) :
    (parse_verification_response barcode d).granted = false := by
  simp [parse_verification_response, habsent]

/-- Claim C10 witness: a body carrying only `user_id` and `reason` parses
to `granted=false`. -/
theorem C10_witness :
    dictFind [("user_id", JsonVal.str "u1"), ("reason", JsonVal.str "ok")]
      "access_granted" = none ∧
    (parse_verification_response "123456789"
      [("user_id", JsonVal.str "u1"), ("reason", JsonVal.str "ok")]).granted = false := by
  exact ⟨by decide, C10_missing_grant_flag_denies "123456789" _ (by decide)⟩

/-- Claim C9: with the remote database unconfigured (`type ≠ "http"` or an
empty base URL), the remote client yields no result, and a verify call
that misses the cache returns the fallback deny with reason
"Remote verification unavailable". -/
theorem C9_unconfigured_denies_uncached (cfg : RemoteConfig) (env : CallEnv)
    (barcode origin : String) (st : DBState)
    (hcfg : cfg.type ≠ "http" ∨ cfg.base_url = "")
    (hux : env.unexpected = none) (hcr : env.cacheReadFails = false)
    (hmiss : get_cached_access env.now st.cache barcode = none) :
    verify_barcode cfg env.resp barcode = none ∧
    (verifyAccess cfg env barcode origin st).result.granted = false ∧
    (verifyAccess cfg env barcode origin st).result.reason =
      some "Remote verification unavailable" ∧
    (verifyAccess cfg env barcode origin st).source = DSource.fallback := by
  have hvb : verify_barcode cfg env.resp barcode = none := by
    unfold verify_barcode
    rw [if_pos hcfg]
  refine ⟨hvb, ?_, ?_, ?_⟩ <;> simp [verifyAccess, hux, hcr, hmiss, hvb]

/-- Claim C9 witness: the default configuration (empty base URL) with an
empty cache denies "123456789" with the unavailability reason. -/
theorem C9_witness :
    (cfgNone.type ≠ "http" ∨ cfgNone.base_url = "") ∧
    verify_barcode cfgNone RemoteResp.netError "123456789" = none ∧
    (verifyAccess cfgNone ⟨50, RemoteResp.netError, false, false, false, none⟩
      "123456789" "api" emptySt).result.granted = false ∧
    (verifyAccess cfgNone ⟨50, RemoteResp.netError, false, false, false, none⟩
      "123456789" "api" emptySt).result.reason = some "Remote verification unavailable" := by
  have h := C9_unconfigured_denies_uncached cfgNone
    ⟨50, RemoteResp.netError, false, false, false, none⟩ "123456789" "api" emptySt
    (by right; rfl) (by rfl) (by rfl) (by rfl)
  exact ⟨by right; rfl, h.1, h.2.1, h.2.2.1⟩

/-- Claim C1: when the remote call resolves to no result (timeout,
connection failure, any Unavailable outcome) on a cache miss, verify
returns the fallback deny with reason "Remote verification unavailable"
(case-insensitively the spec's "remote verification unavailable"), the
cache is not written, and a later call that still misses the cache
invokes the remote verifier again. -/
theorem C1_unavailable_fallback_deny (cfg : RemoteConfig) (env : CallEnv)
    (barcode origin : String) (st : DBState)
    (hux : env.unexpected = none) (hcr : env.cacheReadFails = false)
    (hmiss : get_cached_access env.now st.cache barcode = none)
    (hun : verify_barcode cfg env.resp barcode = none) :
    (verifyAccess cfg env barcode origin st).result.granted = false ∧
    (verifyAccess cfg env barcode origin st).source = DSource.fallback ∧
    (verifyAccess cfg env barcode origin st).result.reason =
      some "Remote verification unavailable" ∧
    ((verifyAccess cfg env barcode origin st).result.reason.map lowerChars) =
      some ("remote verification unavailable".data) ∧
    (verifyAccess cfg env barcode origin st).state.cache = st.cache ∧
    (verifyAccess cfg env barcode origin st).remoteCalled = true ∧
    ∀ env2 : CallEnv, env2.unexpected = none → env2.cacheReadFails = false →
      get_cached_access env2.now st.cache barcode = none →
      (verifyAccess cfg env2 barcode origin
        (verifyAccess cfg env barcode origin st).state).remoteCalled = true := by
  have hcache : (verifyAccess cfg env barcode origin st).state.cache = st.cache := by
    simp [verifyAccess, hux, hcr, hmiss, hun]
  refine ⟨?_, ?_, ?_, ?_, hcache, ?_, ?_⟩
  · simp [verifyAccess, hux, hcr, hmiss, hun]
  · simp [verifyAccess, hux, hcr, hmiss, hun]
  · simp [verifyAccess, hux, hcr, hmiss, hun]
  · simp [verifyAccess, hux, hcr, hmiss, hun]
    decide
  · simp [verifyAccess, hux, hcr, hmiss, hun]
  · intro env2 hux2 hcr2 hmiss2
    refine verifyAccess_remoteCalled_of_miss cfg env2 barcode origin _ hux2 hcr2 ?_
    rw [hcache]
    exact hmiss2

/-- Claim C1 witness: a network error on an empty cache yields the fallback
deny, leaves the cache empty, and the immediate retry queries the remote
again. -/
theorem C1_witness :
    get_cached_access 100 [] "123456789" = none ∧
    verify_barcode cfgHttp RemoteResp.netError "123456789" = none ∧
    (verifyAccess cfgHttp ⟨100, RemoteResp.netError, false, false, false, none⟩
      "123456789" "barcode" emptySt).result.granted = false ∧
    (verifyAccess cfgHttp ⟨100, RemoteResp.netError, false, false, false, none⟩
      "123456789" "barcode" emptySt).source = DSource.fallback ∧
    (verifyAccess cfgHttp ⟨100, RemoteResp.netError, false, false, false, none⟩
      "123456789" "barcode" emptySt).state.cache = emptySt.cache ∧
    (verifyAccess cfgHttp ⟨200, RemoteResp.netError, false, false, false, none⟩
      "123456789" "barcode"
      (verifyAccess cfgHttp ⟨100, RemoteResp.netError, false, false, false, none⟩
        "123456789" "barcode" emptySt).state).remoteCalled = true := by
  have h := C1_unavailable_fallback_deny cfgHttp
    ⟨100, RemoteResp.netError, false, false, false, none⟩ "123456789" "barcode" emptySt
    (by rfl) (by rfl) (by rfl) (by decide)
  exact ⟨by rfl, by decide, h.1, h.2.1, h.2.2.2.2.1,
    h.2.2.2.2.2.2 ⟨200, RemoteResp.netError, false, false, false, none⟩
      (by rfl) (by rfl) (by rfl)⟩

/-- A verify call that hits a fresh cache entry returns it as the decision,
tagged as served from the cache, appends one audit row, and never calls
the remote verifier. -/
theorem verifyAccess_hit (cfg : RemoteConfig) (env : CallEnv)
    (barcode origin : String) (st : DBState) (r : AccessResult)
    (hux : env.unexpected = none) (hcr : env.cacheReadFails = false)
    (hhit : get_cached_access env.now st.cache barcode = some r) :
    (verifyAccess cfg env barcode origin st).result = r ∧
    (verifyAccess cfg env barcode origin st).source = DSource.cache ∧
    (verifyAccess cfg env barcode origin st).state.cache = st.cache ∧
    (verifyAccess cfg env barcode origin st).state.logs =
      appendLog env.auditWriteFails st.logs
        { timestamp := env.now, barcode := barcode, granted := r.granted,
          user_id := r.user_id, user_name := r.user_name,
          reason := logReason r, source := origin } ∧
    (verifyAccess cfg env barcode origin st).remoteCalled = false := by
  refine ⟨?_, ?_, ?_, ?_, ?_⟩ <;> simp [verifyAccess, hux, hcr, hhit]

/-- Claim C2 counterexample: with a configured remote and empty cache, an
HTTP 404 for "999999999" is written to the cache (the claim says it is
not), and the repeated call is answered without invoking the remote
verifier (the claim says the remote is invoked again). -/
theorem C2_counterexample :
    (verifyAccess cfgHttp ⟨100, RemoteResp.status 404 Body.invalidJson,
        false, false, false, none⟩ "999999999" "api" emptySt).state.cache ≠
      emptySt.cache ∧
    (verifyAccess cfgHttp ⟨101, RemoteResp.status 404 Body.invalidJson,
        false, false, false, none⟩ "999999999" "api"
      (verifyAccess cfgHttp ⟨100, RemoteResp.status 404 Body.invalidJson,
        false, false, false, none⟩ "999999999" "api" emptySt).state).remoteCalled =
      false := by
  decide

/-- Claim C2 as amended: an HTTP 404 yields a denied decision from the
remote with reason "Barcode not found in database" (which contains
"not found"), but the decision IS written to the cache like any explicit
answer, so a repeated call within the validity window is served from the
cache without invoking the remote verifier. -/
theorem C2_notfound_is_cached (cfg : RemoteConfig) (env : CallEnv)
    (barcode origin : String) (st : DBState) (body : Body)
    (hcfg1 : cfg.type = "http") (hcfg2 : cfg.base_url ≠ "")
    (hav : cfg.http_available = true)
    (hresp : env.resp = RemoteResp.status 404 body)
    (hux : env.unexpected = none) (hcr : env.cacheReadFails = false)
    (hcw : env.cacheWriteFails = false)
    (hmiss : get_cached_access env.now st.cache barcode = none) :
    (verifyAccess cfg env barcode origin st).result.granted = false ∧
    (verifyAccess cfg env barcode origin st).source = DSource.remote ∧
    (verifyAccess cfg env barcode origin st).result.reason =
      some "Barcode not found in database" ∧
    containsSub "Barcode not found in database" "not found" = true ∧
    (verifyAccess cfg env barcode origin st).state.cache =
      cache_access_result env.now st.cache
        { granted := false, barcode := barcode,
          reason := some "Barcode not found in database" } ∧
    ∀ env2 : CallEnv, env2.unexpected = none → env2.cacheReadFails = false →
      env2.now - env.now < cacheValiditySeconds →
      (verifyAccess cfg env2 barcode origin
        (verifyAccess cfg env barcode origin st).state).remoteCalled = false ∧
      (verifyAccess cfg env2 barcode origin
        (verifyAccess cfg env barcode origin st).state).source = DSource.cache ∧
      (verifyAccess cfg env2 barcode origin
        (verifyAccess cfg env barcode origin st).state).result.granted = false := by
  have hvb : verify_barcode cfg env.resp barcode =
      some { granted := false, barcode := barcode,
             reason := some "Barcode not found in database" } := by
    rw [hresp]
    unfold verify_barcode
    rw [if_neg (by simp [hcfg1, hcfg2]), if_neg (by simp [hav])]
    simp
  have hcacheEq : (verifyAccess cfg env barcode origin st).state.cache =
      cache_access_result env.now st.cache
        { granted := false, barcode := barcode,
          reason := some "Barcode not found in database" } := by
    simp [verifyAccess, hux, hcr, hmiss, hvb, hcw]
  refine ⟨?_, ?_, ?_, by decide, hcacheEq, ?_⟩
  · simp [verifyAccess, hux, hcr, hmiss, hvb]
  · simp [verifyAccess, hux, hcr, hmiss, hvb]
  · simp [verifyAccess, hux, hcr, hmiss, hvb]
  · intro env2 hux2 hcr2 hfresh
    have hhit : get_cached_access env2.now
        (verifyAccess cfg env barcode origin st).state.cache barcode =
        some { granted := false, barcode := barcode, user_id := none,
               user_name := none, reason := none, expires_at := none,
               permissions := some [], cached := true } := by
      rw [hcacheEq]
      exact get_cached_access_put env.now env2.now st.cache
        { granted := false, barcode := barcode,
          reason := some "Barcode not found in database" } hfresh
    obtain ⟨h1, h2, _, _, h5⟩ := verifyAccess_hit cfg env2 barcode origin
      (verifyAccess cfg env barcode origin st).state _ hux2 hcr2 hhit
    refine ⟨h5, h2, ?_⟩
    rw [h1]

/-- Claim C2 witness (for the amended statement): 404 for "999999999" on an
empty cache denies with the not-found reason and is served from the cache
on the immediate retry. -/
theorem C2_witness :
    (verifyAccess cfgHttp ⟨100, RemoteResp.status 404 Body.invalidJson,
        false, false, false, none⟩ "999999999" "api" emptySt).result.granted = false ∧
    (verifyAccess cfgHttp ⟨100, RemoteResp.status 404 Body.invalidJson,
        false, false, false, none⟩ "999999999" "api" emptySt).source =
      DSource.remote ∧
    (verifyAccess cfgHttp ⟨100, RemoteResp.status 404 Body.invalidJson,
        false, false, false, none⟩ "999999999" "api" emptySt).result.reason =
      some "Barcode not found in database" ∧
    (verifyAccess cfgHttp ⟨200, RemoteResp.status 404 Body.invalidJson,
        false, false, false, none⟩ "999999999" "api"
      (verifyAccess cfgHttp ⟨100, RemoteResp.status 404 Body.invalidJson,
        false, false, false, none⟩ "999999999" "api" emptySt).state).source =
      DSource.cache := by
  have h := C2_notfound_is_cached cfgHttp
    ⟨100, RemoteResp.status 404 Body.invalidJson, false, false, false, none⟩
    "999999999" "api" emptySt Body.invalidJson rfl (by decide) rfl rfl rfl rfl rfl rfl
  exact ⟨h.1, h.2.1, h.2.2.1,
    (h.2.2.2.2.2 ⟨200, RemoteResp.status 404 Body.invalidJson,
      false, false, false, none⟩ rfl rfl (by decide)).2.1⟩

/-- Claim C6 counterexample: a 200 response whose body is valid JSON but not
a JSON object is not classified as Unavailable — `verify_barcode` returns
an explicit deny with reason "Invalid response format", and
`verify_access` writes it to the cache. -/
theorem C6_counterexample :
    verify_barcode cfgHttp (RemoteResp.status 200 Body.nonObject) "123456789" =
      some { granted := false, barcode := "123456789",
             reason := some "Invalid response format" } ∧
    verify_barcode cfgHttp (RemoteResp.status 200 Body.nonObject) "123456789" ≠
      none ∧
    (verifyAccess cfgHttp ⟨100, RemoteResp.status 200 Body.nonObject,
        false, false, false, none⟩ "123456789" "api" emptySt).state.cache ≠
      emptySt.cache := by
  decide

/-- Claim C6 as amended: network errors, unparseable (invalid-JSON) bodies
and non-2xx statuses other than 404 are classified as Unavailable (no
result) and an Unavailable outcome never writes the cache; but a
200-status body that is valid JSON and not a JSON object yields an
explicit deny with reason "Invalid response format", which is returned
(and cached) like any explicit answer. -/
theorem C6_unavailable_classification (cfg : RemoteConfig) (barcode : String)
    (hcfg1 : cfg.type = "http") (hcfg2 : cfg.base_url ≠ "")
    (hav : cfg.http_available = true) :
    verify_barcode cfg RemoteResp.netError barcode = none ∧
    (∀ (code : Nat) (body : Body), code ≠ 200 → code ≠ 404 →
      verify_barcode cfg (RemoteResp.status code body) barcode = none) ∧
    verify_barcode cfg (RemoteResp.status 200 Body.invalidJson) barcode = none ∧
    verify_barcode cfg (RemoteResp.status 200 Body.nonObject) barcode =
      some { granted := false, barcode := barcode,
             reason := some "Invalid response format" } ∧
    ∀ (env : CallEnv) (origin : String) (st : DBState),
      verify_barcode cfg env.resp barcode = none →
      (verifyAccess cfg env barcode origin st).state.cache = st.cache := by
  have hno : ¬ (cfg.type ≠ "http" ∨ cfg.base_url = "") := by simp [hcfg1, hcfg2]
  refine ⟨?_, ?_, ?_, ?_, ?_⟩
  · unfold verify_barcode
    rw [if_neg hno, if_neg (by simp [hav])]
  · intro code body h200 h404
    unfold verify_barcode
    rw [if_neg hno, if_neg (by simp [hav])]
    simp [h200, h404]
  · unfold verify_barcode
    rw [if_neg hno, if_neg (by simp [hav])]
    simp
  · unfold verify_barcode
    rw [if_neg hno, if_neg (by simp [hav])]
    simp
  · intro env origin st hnone
    cases hux : env.unexpected with
    | some e => simp [verifyAccess, hux]
    | none =>
      cases hcr : env.cacheReadFails with
      | false =>
        cases hgc : get_cached_access env.now st.cache barcode with
        | none => simp [verifyAccess, hux, hcr, hgc, hnone]
        | some r => simp [verifyAccess, hux, hcr, hgc]
      | true => simp [verifyAccess, hux, hcr, hnone]

/-- Claim C6 witness: for a configured remote, a 500 status and an
invalid-JSON 200 body give no result and leave the cache unchanged, while
a non-object 200 body gives the explicit "Invalid response format" deny. -/
theorem C6_witness :
    verify_barcode cfgHttp RemoteResp.netError "42" = none ∧
    verify_barcode cfgHttp (RemoteResp.status 500 Body.invalidJson) "42" = none ∧
    verify_barcode cfgHttp (RemoteResp.status 200 Body.invalidJson) "42" = none ∧
    verify_barcode cfgHttp (RemoteResp.status 200 Body.nonObject) "42" =
      some { granted := false, barcode := "42",
             reason := some "Invalid response format" } ∧
    (verifyAccess cfgHttp ⟨77, RemoteResp.netError, false, false, false, none⟩
      "42" "api" emptySt).state.cache = emptySt.cache := by
  have h := C6_unavailable_classification cfgHttp "42" rfl (by decide) rfl
  exact ⟨h.1, h.2.1 500 Body.invalidJson (by decide) (by decide), h.2.2.1,
    h.2.2.2.1, h.2.2.2.2 ⟨77, RemoteResp.netError, false, false, false, none⟩
      "api" emptySt (by decide)⟩

/-- Response body of the spec's scenario (a): an explicit grant for
"123456789" with `user_id` "user001" and one permission. -/
def bodyA : Dict :=
  [("access_granted", JsonVal.bool true), ("user_id", JsonVal.str "user001"),
   ("permissions", JsonVal.list ["door_access"])]

/-- Call environment delivering `bodyA` with no failures at time 100. -/
def envA : CallEnv :=
  ⟨100, RemoteResp.status 200 (Body.obj bodyA), false, false, false, none⟩

/-- First verify call of scenario (a), on an empty database. -/
def outA1 : VerifyOut := verifyAccess cfgHttp envA "123456789" "barcode" emptySt

/-- Second verify call of scenario (a), against the state the first left. -/
def outA2 : VerifyOut := verifyAccess cfgHttp envA "123456789" "barcode" outA1.state

/-- Claim C7 counterexample: in scenario (a) the second call is served from
the cache with the same `granted` and `user_id`, but its reason is `none`
— not the first decision's "Access granted" — because the cache table
does not store the reason column. -/
theorem C7_counterexample :
    outA1.result.granted = true ∧ outA2.result.granted = true ∧
    outA2.source = DSource.cache ∧
    outA1.result.reason = some "Access granted" ∧
    outA2.result.reason = none ∧
    outA2.result.reason ≠ outA1.result.reason := by
  decide

/-- Claim C7 as amended: two verify calls within the validity window (first
a cache miss answered explicitly by the remote, with no failures) return
the same `granted`, `user_id` and `user_name`; the second is served from
the cache without a remote call, but its reason is `none` — it does not
repeat the first decision's reason, which the cache does not store. -/
theorem C7_second_call_from_cache (cfg : RemoteConfig) (env1 env2 : CallEnv)
    (barcode origin1 origin2 : String) (st : DBState) (r : AccessResult)
    (hux1 : env1.unexpected = none) (hcr1 : env1.cacheReadFails = false)
    (hcw1 : env1.cacheWriteFails = false)
    (hmiss : get_cached_access env1.now st.cache barcode = none)
    (hvb : verify_barcode cfg env1.resp barcode = some r)
    (hux2 : env2.unexpected = none) (hcr2 : env2.cacheReadFails = false)
    (hwin : env2.now - env1.now < cacheValiditySeconds) :
    (verifyAccess cfg env2 barcode origin2
      (verifyAccess cfg env1 barcode origin1 st).state).source = DSource.cache ∧
    (verifyAccess cfg env2 barcode origin2
        (verifyAccess cfg env1 barcode origin1 st).state).result.granted =
      (verifyAccess cfg env1 barcode origin1 st).result.granted ∧
    (verifyAccess cfg env2 barcode origin2
        (verifyAccess cfg env1 barcode origin1 st).state).result.user_id =
      (verifyAccess cfg env1 barcode origin1 st).result.user_id ∧
    (verifyAccess cfg env2 barcode origin2
        (verifyAccess cfg env1 barcode origin1 st).state).result.user_name =
      (verifyAccess cfg env1 barcode origin1 st).result.user_name ∧
    (verifyAccess cfg env2 barcode origin2
      (verifyAccess cfg env1 barcode origin1 st).state).result.reason = none ∧
    (verifyAccess cfg env2 barcode origin2
      (verifyAccess cfg env1 barcode origin1 st).state).remoteCalled = false := by
  have hb : r.barcode = barcode := (verify_barcode_shape cfg env1.resp barcode r hvb).1
  have hres1 : (verifyAccess cfg env1 barcode origin1 st).result = r := by
    simp [verifyAccess, hux1, hcr1, hmiss, hvb]
  have hcache1 : (verifyAccess cfg env1 barcode origin1 st).state.cache =
      cache_access_result env1.now st.cache r := by
    simp [verifyAccess, hux1, hcr1, hmiss, hvb, hcw1]
  have hhit : get_cached_access env2.now
      (verifyAccess cfg env1 barcode origin1 st).state.cache barcode =
      some { granted := r.granted, barcode := r.barcode, user_id := r.user_id,
             user_name := r.user_name, reason := none, expires_at := r.expires_at,
             permissions := some (r.permissions.getD []), cached := true } := by
    rw [hcache1, ← hb]
    exact get_cached_access_put env1.now env2.now st.cache r hwin
  obtain ⟨h1, h2, _, _, h5⟩ := verifyAccess_hit cfg env2 barcode origin2
    (verifyAccess cfg env1 barcode origin1 st).state _ hux2 hcr2 hhit
  rw [h1, h2, h5, hres1]
  exact ⟨rfl, rfl, rfl, rfl, rfl, rfl⟩

/-- Claim C7 witness: scenario (a) instantiated — second call from cache,
same granted and user fields, reason dropped. -/
theorem C7_witness :
    (verifyAccess cfgHttp envA "123456789" "api" outA1.state).source =
      DSource.cache ∧
    (verifyAccess cfgHttp envA "123456789" "api" outA1.state).result.granted =
      outA1.result.granted ∧
    (verifyAccess cfgHttp envA "123456789" "api" outA1.state).result.user_id =
      outA1.result.user_id ∧
    (verifyAccess cfgHttp envA "123456789" "api" outA1.state).result.reason =
      none := by
  have h := C7_second_call_from_cache cfgHttp envA envA "123456789" "barcode" "api"
    emptySt (parse_verification_response "123456789" bodyA)
    rfl rfl rfl rfl (by decide) rfl rfl (by decide)
  exact ⟨h.1, h.2.1, h.2.2.1, h.2.2.2.2.1⟩

/-- On every path that does not hit the outer exception handler, the audit
append carries the decision's fields, with the reason defaulted by
`logReason`. -/
theorem verifyAccess_logs (cfg : RemoteConfig) (env : CallEnv)
    (barcode origin : String) (st : DBState) (hux : env.unexpected = none) :
    (verifyAccess cfg env barcode origin st).state.logs =
      appendLog env.auditWriteFails st.logs
        { timestamp := env.now, barcode := barcode,
          granted := (verifyAccess cfg env barcode origin st).result.granted,
          user_id := (verifyAccess cfg env barcode origin st).result.user_id,
          user_name := (verifyAccess cfg env barcode origin st).result.user_name,
          reason := logReason (verifyAccess cfg env barcode origin st).result,
          source := origin } := by
  cases hcr : env.cacheReadFails with
  | true =>
    cases hvb : verify_barcode cfg env.resp barcode <;>
      simp [verifyAccess, hux, hcr, hvb]
  | false =>
    cases hgc : get_cached_access env.now st.cache barcode with
    | some r => simp [verifyAccess, hux, hcr, hgc]
    | none =>
      cases hvb : verify_barcode cfg env.resp barcode <;>
        simp [verifyAccess, hux, hcr, hgc, hvb]

/-- Claim C3 counterexample: in the internal-error branch the single audit
row's reason is "Verification error: boom" — the underlying cause — while
the returned Decision's reason is "Verification error", so the row does
not carry the Decision's reason field as the claim states. -/
theorem C3_counterexample :
    (verifyAccess cfgHttp ⟨100, RemoteResp.netError, false, false, false, some "boom"⟩
      "123" "api" emptySt).result.reason = some "Verification error" ∧
    (verifyAccess cfgHttp ⟨100, RemoteResp.netError, false, false, false, some "boom"⟩
      "123" "api" emptySt).state.logs =
      [⟨100, "123", false, none, none, "Verification error: boom", "api"⟩] ∧
    ("Verification error: boom" : String) ≠ "Verification error" := by
  decide

/-- Claim C3 as amended: when the audit write succeeds, every verify call
appends exactly one access_logs row carrying the final Decision's
granted/user_id/user_name, the caller-supplied origin and the barcode;
the row's reason is the Decision's reason defaulted to "Access granted"/
"Access denied" when the Decision carries none (e.g. cache hits), and in
the internal-error branch it is "Verification error: cause" while the
Decision's is "Verification error"; when the audit write fails, no row is
appended. -/
theorem C3_single_audit_row (cfg : RemoteConfig) (env : CallEnv)
    (barcode origin : String) (st : DBState) :
    (env.auditWriteFails = false →
      ∃ e : AccessLog,
        (verifyAccess cfg env barcode origin st).state.logs = st.logs ++ [e] ∧
        e.barcode = barcode ∧
        e.granted = (verifyAccess cfg env barcode origin st).result.granted ∧
        e.user_id = (verifyAccess cfg env barcode origin st).result.user_id ∧
        e.user_name = (verifyAccess cfg env barcode origin st).result.user_name ∧
        e.source = origin ∧
        (env.unexpected = none →
          e.reason = logReason (verifyAccess cfg env barcode origin st).result) ∧
        (∀ c, env.unexpected = some c →
          e.reason = "Verification error: " ++ c)) ∧
    (env.auditWriteFails = true →
      (verifyAccess cfg env barcode origin st).state.logs = st.logs) := by
  cases hux : env.unexpected with
  | some c =>
    constructor
    · intro haw
      refine ⟨⟨env.now, barcode, false, none, none, "Verification error: " ++ c, origin⟩,
        ?_, rfl, ?_, ?_, ?_, rfl, ?_, ?_⟩
      · simp [verifyAccess, hux, appendLog, haw]
      · simp [verifyAccess, hux]
      · simp [verifyAccess, hux]
      · simp [verifyAccess, hux]
      · intro hnone
        exact Option.noConfusion hnone
      · intro c2 hc2
        cases hc2
        rfl
    · intro haw
      simp [verifyAccess, hux, appendLog, haw]
  | none =>
    have hlogs := verifyAccess_logs cfg env barcode origin st hux
    constructor
    · intro haw
      rw [haw] at hlogs
      refine ⟨⟨env.now, barcode,
          (verifyAccess cfg env barcode origin st).result.granted,
          (verifyAccess cfg env barcode origin st).result.user_id,
          (verifyAccess cfg env barcode origin st).result.user_name,
          logReason (verifyAccess cfg env barcode origin st).result, origin⟩,
        ?_, rfl, rfl, rfl, rfl, rfl, fun _ => rfl, ?_⟩
      · rw [hlogs]
        simp [appendLog]
      · intro c hc
        exact Option.noConfusion hc
    · intro haw
      rw [haw] at hlogs
      simpa [appendLog] using hlogs

/-- Claim C3 witness: scenario (a)'s first call on an empty database appends
exactly one audit row. -/
theorem C3_witness :
    (verifyAccess cfgHttp envA "123456789" "barcode" emptySt).state.logs.length =
      emptySt.logs.length + 1 := by
  obtain ⟨e, h1, _⟩ :=
    (C3_single_audit_row cfgHttp envA "123456789" "barcode" emptySt).1 rfl
  rw [h1]
  simp

/-- Claim C4: verify is total over every combination of cache-read,
cache-write and audit-write failures and every remote outcome — the
returned Decision always carries the queried barcode, the cached flag is
set exactly on the cache-served branch, the fallback and internal-error
branches always deny with a reason, and an audit-write failure changes
neither the Decision nor the cache, only suppresses the audit row. -/
theorem C4_verify_total_fail_safe (cfg : RemoteConfig) (env : CallEnv)
    (barcode origin : String) (st : DBState) :
    (verifyAccess cfg { env with auditWriteFails := true } barcode origin st).result =
      (verifyAccess cfg { env with auditWriteFails := false } barcode origin st).result ∧
    (verifyAccess cfg { env with auditWriteFails := true } barcode origin st).state.cache =
      (verifyAccess cfg { env with auditWriteFails := false } barcode origin st).state.cache ∧
    (verifyAccess cfg { env with auditWriteFails := true } barcode origin st).state.logs =
      st.logs ∧
    (verifyAccess cfg env barcode origin st).result.barcode = barcode ∧
    ((verifyAccess cfg env barcode origin st).result.cached = true ↔
      (verifyAccess cfg env barcode origin st).source = DSource.cache) ∧
    ((verifyAccess cfg env barcode origin st).source = DSource.fallback ∨
      (verifyAccess cfg env barcode origin st).source = DSource.error →
      (verifyAccess cfg env barcode origin st).result.granted = false ∧
      (verifyAccess cfg env barcode origin st).result.reason ≠ none) := by
  cases hux : env.unexpected with
  | some c =>
    refine ⟨?_, ?_, ?_, ?_, ?_, ?_⟩ <;> simp [verifyAccess, hux, appendLog]
  | none =>
    cases hcr : env.cacheReadFails with
    | true =>
      cases hvb : verify_barcode cfg env.resp barcode with
      | none =>
        refine ⟨?_, ?_, ?_, ?_, ?_, ?_⟩ <;>
          simp [verifyAccess, hux, hcr, hvb, appendLog]
      | some r =>
        obtain ⟨hb, hc⟩ := verify_barcode_shape cfg env.resp barcode r hvb
        refine ⟨?_, ?_, ?_, ?_, ?_, ?_⟩ <;>
          simp [verifyAccess, hux, hcr, hvb, appendLog, hb, hc]
    | false =>
      cases hgc : get_cached_access env.now st.cache barcode with
      | some r =>
        obtain ⟨hb, hc⟩ := get_cached_access_shape env.now st.cache barcode r hgc
        refine ⟨?_, ?_, ?_, ?_, ?_, ?_⟩ <;>
          simp [verifyAccess, hux, hcr, hgc, appendLog, hb, hc]
      | none =>
        cases hvb : verify_barcode cfg env.resp barcode with
        | none =>
          refine ⟨?_, ?_, ?_, ?_, ?_, ?_⟩ <;>
            simp [verifyAccess, hux, hcr, hgc, hvb, appendLog]
        | some r =>
          obtain ⟨hb, hc⟩ := verify_barcode_shape cfg env.resp barcode r hvb
          refine ⟨?_, ?_, ?_, ?_, ?_, ?_⟩ <;>
            simp [verifyAccess, hux, hcr, hgc, hvb, appendLog, hb, hc]

/-- Claim C4 witness: with the remote unreachable and the audit write
failing, the call still returns the same fallback deny as with a working
audit write, appends nothing, and the decision denies with a reason. -/
theorem C4_witness :
    (verifyAccess cfgHttp ⟨100, RemoteResp.netError, false, false, true, none⟩
        "123" "api" emptySt).result =
      (verifyAccess cfgHttp ⟨100, RemoteResp.netError, false, false, false, none⟩
        "123" "api" emptySt).result ∧
    (verifyAccess cfgHttp ⟨100, RemoteResp.netError, false, false, true, none⟩
      "123" "api" emptySt).state.logs = emptySt.logs ∧
    (verifyAccess cfgHttp ⟨100, RemoteResp.netError, false, false, false, none⟩
      "123" "api" emptySt).result.granted = false ∧
    (verifyAccess cfgHttp ⟨100, RemoteResp.netError, false, false, false, none⟩
      "123" "api" emptySt).result.reason ≠ none := by
  have h := C4_verify_total_fail_safe cfgHttp
    ⟨100, RemoteResp.netError, false, false, false, none⟩ "123" "api" emptySt
  exact ⟨h.1, h.2.2.1, (h.2.2.2.2.2 (Or.inl (by decide))).1,
    (h.2.2.2.2.2 (Or.inl (by decide))).2⟩

/-- Claim C8 counterexample: with two rows of which exactly one predates
now − 24h, `cleanup_old_cache` removes that one row but returns `None`,
not the count 1 the claim states. -/
theorem C8_counterexample :
    (cleanup_old_cache 200000 24 [⟨"1", none, none, true, [], none, 10⟩,
        ⟨"2", none, none, true, [], none, 199999⟩]).1 =
      [⟨"2", none, none, true, [], none, 199999⟩] ∧
    (cleanup_old_cache 200000 24 [⟨"1", none, none, true, [], none, 10⟩,
        ⟨"2", none, none, true, [], none, 199999⟩]).2 = none ∧
    (none : Option Nat) ≠ some 1 := by
  decide

/-- Claim C8 as amended: the sweep keeps exactly the rows whose `cached_at`
does not predate now − max_age (removing all and only the older ones),
preserves their order and multiplicity, and returns no count — the
function's return value is `None`. -/
theorem C8_evict_exact (now max_age_hours : Nat) (cache : List CacheRow) :
    (∀ row : CacheRow, row ∈ (cleanup_old_cache now max_age_hours cache).1 ↔
      (row ∈ cache ∧ ¬ row.cached_at < now - max_age_hours * 3600)) ∧
    List.Sublist (cleanup_old_cache now max_age_hours cache).1 cache ∧
    (cleanup_old_cache now max_age_hours cache).2 = none := by
  refine ⟨?_, ?_, rfl⟩
  · intro row
    simp [cleanup_old_cache, List.mem_filter]
  · exact List.filter_sublist (l := cache)
      (p := fun row => ¬ row.cached_at < now - max_age_hours * 3600)

/-- Claim C8 witness: in the two-row instance the young row is kept, the
old row is gone, and the returned value is `None`. -/
theorem C8_witness :
    ((⟨"2", none, none, true, [], none, 199999⟩ : CacheRow) ∈
      (cleanup_old_cache 200000 24 [⟨"1", none, none, true, [], none, 10⟩,
        ⟨"2", none, none, true, [], none, 199999⟩]).1) ∧
    ¬ ((⟨"1", none, none, true, [], none, 10⟩ : CacheRow) ∈
      (cleanup_old_cache 200000 24 [⟨"1", none, none, true, [], none, 10⟩,
        ⟨"2", none, none, true, [], none, 199999⟩]).1) ∧
    (cleanup_old_cache 200000 24 [⟨"1", none, none, true, [], none, 10⟩,
      ⟨"2", none, none, true, [], none, 199999⟩]).2 = none := by
  have h := C8_evict_exact 200000 24 [⟨"1", none, none, true, [], none, 10⟩,
    ⟨"2", none, none, true, [], none, 199999⟩]
  refine ⟨(h.1 _).mpr ⟨by decide, by decide⟩, ?_, h.2.2⟩
  intro hmem
  exact absurd ((h.1 _).mp hmem).2 (by decide)

end IonoPi
